import Mathlib

/-!
Verification of the row-normalization, collection, deduplication and
comment-harvesting logic of `src/reddit_code.py` (class `RedditCollector`
and `collect_comments_for_posts`), as a shallow embedding in Lean.

Modelling conventions:
* Attribute values on raw submission objects are modelled by the inductive
  `PyVal` (None / int / str / bool), since every access in the source goes
  through `getattr(sub, name, None)` and may return an arbitrary value.
  An absent attribute is `PyVal.vNone`, matching the `None` default.
* `int(v)` is modelled by `pyInt`, which fails (as the Python call raises)
  on `None` and on strings that do not parse as an integer.
* Python truthiness is modelled by `pyTruthy`; Python's f-string rendering
  of a value is modelled by `pyStr`.
* Python string slicing `s[:n]` operates on code points, modelled by
  `pytake` over the character list of a `String`.
* The external Reddit API client is out of scope: a per-subreddit
  hot-listing / search call is modelled as an `Except String (List Submission)`
  supplied by the environment (`Except.error` models the call raising),
  and a per-post comment fetch as `Except String (List Comment)`.
-/

/-- Dynamically-typed attribute value of a raw submission object. -/
inductive PyVal where
  | vNone : PyVal
  | vInt (n : Int) : PyVal
  | vStr (s : String) : PyVal
  | vBool (b : Bool) : PyVal
deriving DecidableEq, Repr

namespace PyVal

/-- Python truthiness of a value (`if v:`). -/
def pyTruthy : PyVal → Bool
  | vNone => false
  | vInt n => n != 0
  | vStr s => s != ""
  | vBool b => b

/-- Python `str(v)` as used by f-string interpolation. -/
def pyStr : PyVal → String
  | vNone => "None"
  | vInt n => toString n
  | vStr s => s
  | vBool b => if b then "True" else "False"

/-- Parse a nonempty all-digit character list as a natural number. -/
def parseDigits : List Char → Option Nat
  | [] => none
  | cs =>
    if cs.all (fun c => c.isDigit) then
      some (cs.foldl (fun a c => a * 10 + (c.toNat - 48)) 0)
    else none

/-- Python `int(s)` on a string: an optional sign followed by digits. -/
def pyIntOfString (s : String) : Option Int :=
  match s.data with
  | '-' :: rest => (parseDigits rest).map (fun n => -(n : Int))
  | '+' :: rest => (parseDigits rest).map (fun n => (n : Int))
  | cs => (parseDigits cs).map (fun n => (n : Int))

/-- Python `int(v)`: succeeds on ints and bools, parses integer strings,
raises (here: `Except.error`) on `None` and unparsable strings. -/
def pyInt : PyVal → Except String Int
  | vNone => Except.error "int() argument must be a number, not NoneType"
  | vInt n => Except.ok n
  | vStr s =>
    match pyIntOfString s with
    | some n => Except.ok n
    | none => Except.error "invalid literal for int()"
  | vBool b => Except.ok (if b then 1 else 0)

/-- Whether `pyInt` succeeds on the value. -/
def pyIntOk : PyVal → Bool
  | vNone => false
  | vInt _ => true
  | vStr s => (pyIntOfString s).isSome
  | vBool _ => true

/-- Python `bool(v)` coincides with truthiness for our value universe. -/
def pyBool (v : PyVal) : Bool := v.pyTruthy

end PyVal

open PyVal

/-- Python `s[:n]`: the first `n` code points of `s`. -/
def pytake (s : String) (n : Nat) : String := String.mk (s.data.take n)

/-- A raw submission object as consumed by `_row_from_submission`.
`author` is `none` when the `author` attribute is `None`/absent, and
`some nm` when an author object is present whose `name` attribute is `nm`. -/
structure Submission where
  title : PyVal
  score : PyVal
  upvote_ratio : PyVal
  num_comments : PyVal
  author : Option PyVal
  url : PyVal
  permalink : PyVal
  created_utc : PyVal
  is_self : PyVal
  selftext : PyVal
  link_flair_text : PyVal
  domain : PyVal
deriving DecidableEq, Repr

/-- A normalized Post Row: the dictionary returned by `_row_from_submission`,
with exactly the 14 schema keys of `REQUIRED_COLUMNS`, in order. -/
structure Row where
  title : PyVal
  score : PyVal
  upvote_ratio : PyVal
  num_comments : PyVal
  author : PyVal
  subreddit : String
  url : PyVal
  permalink : Option String
  created_utc : Option Int
  is_self : Option Bool
  selftext : PyVal
  flair : PyVal
  domain : PyVal
  search_query : String
deriving DecidableEq, Repr

/-- Python `search_query or ""`. -/
def orEmpty : Option String → String
  | none => ""
  | some s => if s = "" then "" else s

/-- The dictionary literal returned by `_row_from_submission`, as a function
of the already-coerced `created_utc` value (the one field whose coercion can
fail; all other fields are total functions of the input). -/
def rowCore (sub : Submission) (subreddit_name : String)
    (search_query : Option String) (created_utc : Option Int) : Row :=
  { title := sub.title
    score := sub.score
    upvote_ratio := sub.upvote_ratio
    num_comments := sub.num_comments
    author :=
      match sub.author with
      | none => PyVal.vNone
      | some nm => nm
    subreddit := subreddit_name
    url := sub.url
    permalink :=
      if pyTruthy sub.permalink then
        some ("https://www.reddit.com" ++ pyStr sub.permalink)
      else none
    created_utc := created_utc
    is_self :=
      match sub.is_self with
      | PyVal.vNone => none
      | v => some (pyBool v)
    selftext :=
      match sub.selftext with
      | PyVal.vStr s => PyVal.vStr (pytake s 500)
      | v => v
    flair := sub.link_flair_text
    domain := sub.domain
    search_query := orEmpty search_query }

/-- `RedditCollector._row_from_submission`, translated line by line.
Every attribute access is a defensive `getattr(..., None)`, modelled by the
`Submission` fields. The only operation that can raise is
`int(created_utc)` when `created_utc` is neither `None` nor coercible to an
integer, so the result is an `Except`: `Except.error` models the Python
call raising. -/
def _row_from_submission (sub : Submission) (subreddit_name : String)
    (search_query : Option String) : Except String Row :=
  let cu : Except String (Option Int) :=
    match sub.created_utc with
    | PyVal.vNone => Except.ok none
    | v => (pyInt v).map some
  cu.map (rowCore sub subreddit_name search_query)

example : (_row_from_submission
    { title := PyVal.vStr "t", score := PyVal.vInt 3, upvote_ratio := PyVal.vNone,
      num_comments := PyVal.vNone, author := none, url := PyVal.vNone,
      permalink := PyVal.vStr "/r/a/1", created_utc := PyVal.vInt 7,
      is_self := PyVal.vNone, selftext := PyVal.vNone,
      link_flair_text := PyVal.vNone, domain := PyVal.vNone }
    "a" none).isOk = true := by decide

/-- The body of the per-subreddit `for sub in <listing>:` loop of
`fetch_hot_posts` / `search_posts`, inside its `try`. Each submission is
normalized and appended to `self.rows`, and `total` is incremented. If
normalization raises (see `_row_from_submission`), the exception aborts the
remaining submissions of this subreddit (the rows already appended stay) and
is caught by the per-subreddit `except`. -/
def appendRows (name : String) (q : Option String) :
    List Row × Nat → List Submission → List Row × Nat
  | acc, [] => acc
  | acc, s :: rest =>
    match _row_from_submission s name q with
    | Except.ok r => appendRows name q (acc.1 ++ [r], acc.2 + 1) rest
    | Except.error _ => acc

/-- One iteration of the per-subreddit loop of a collection pass. The
environment supplies the outcome of the API client's listing call:
`Except.ok subs` when it yields the submissions `subs`, `Except.error e`
when it raises. A raising call is caught by the per-subreddit `try/except`
(`log.warning`): the accumulator is unchanged and the loop continues with
the next subreddit. -/
def passStep (q : Option String) (acc : List Row × Nat)
    (nr : String × Except String (List Submission)) : List Row × Nat :=
  match nr.2 with
  | Except.error _ => acc
  | Except.ok subs => appendRows nr.1 q acc subs

/-- A whole collection pass over a list of subreddits: the per-subreddit
loop of `fetch_hot_posts` / `search_posts`. Returns the accumulated
`self.rows` together with the `total` counter the pass logs. -/
def runPass (q : Option String) (rows₀ : List Row)
    (fetches : List (String × Except String (List Submission))) :
    List Row × Nat :=
  fetches.foldl (passStep q) (rows₀, 0)

/-- `RedditCollector.fetch_hot_posts`: a pass with `search_query = None`.
`rows₀` is the content of `self.rows` before the call. -/
def fetch_hot_posts (rows₀ : List Row)
    (fetches : List (String × Except String (List Submission))) :
    List Row × Nat :=
  runPass none rows₀ fetches

/-- `RedditCollector.search_posts`: a pass tagging rows with the query. -/
def search_posts (q : String) (rows₀ : List Row)
    (fetches : List (String × Except String (List Submission))) :
    List Row × Nat :=
  runPass (some q) rows₀ fetches

/-- `RedditCollector.to_dataframe`: builds a DataFrame from `self.rows` and
reindexes to `REQUIRED_COLUMNS`. Every `Row` produced by the normalizer
already carries exactly the 14 required columns (the `Row` structure), so on
this representation the reindexing is the identity. -/
def to_dataframe (rows : List Row) : List Row := rows

/-- `df.drop_duplicates(subset=["permalink"], keep="first")`: keep each row
whose permalink value has not been seen before. pandas treats missing values
as equal for this purpose, so `none` is an ordinary key. -/
def dedupPermalink (seen : List (Option String)) : List Row → List Row
  | [] => []
  | r :: rs =>
    if r.permalink ∈ seen then dedupPermalink seen rs
    else r :: dedupPermalink (r.permalink :: seen) rs

/-- `RedditCollector.export_posts_csv`: build the dataframe and drop
duplicate permalinks keeping the first occurrence. (`"permalink" in
df.columns` is always true after `to_dataframe`, so the dedup step always
runs.) The returned table is what is written to CSV. -/
def export_posts_csv (rows : List Row) : List Row :=
  dedupPermalink [] (to_dataframe rows)

/-- A raw comment object as consumed by `collect_comments_for_posts`.
Fields model the `getattr` accesses: `authorName` is the resolved
`getattr(getattr(c, "author", None), "name", None)`; `body` is `none` when
`hasattr(c, "body")` is false; `created_utc` and `depth` are `none` when the
attribute is absent. PRAW comment attributes are numeric/textual, so these
are typed directly rather than through `PyVal`. -/
structure Comment where
  id : Option String
  authorName : Option String
  body : Option String
  score : Option Int
  created_utc : Option Int
  depth : Option Int
deriving DecidableEq, Repr

/-- One flattened comment row, the dictionary appended to `all_comments`. -/
structure CommentRow where
  post_title : PyVal
  subreddit : String
  post_permalink : String
  comment_id : Option String
  author : Option String
  body : String
  score : Option Int
  created_utc : Option Int
  depth : Int
deriving DecidableEq, Repr

/-- The dictionary built for one comment `c` of the post `row` with
permalink `p`: `body` is truncated to 2000 characters (empty string when the
attribute is absent), `created_utc` is `int(...)` when truthy (so a value of
`0` yields `None`), `depth` defaults to `0`. -/
def mkCommentRow (row : Row) (p : String) (c : Comment) : CommentRow :=
  { post_title := row.title
    subreddit := row.subreddit
    post_permalink := p
    comment_id := c.id
    author := c.authorName
    body :=
      match c.body with
      | some b => pytake b 2000
      | none => ""
    score := c.score
    created_utc :=
      match c.created_utc with
      | some t => if t = 0 then none else some t
      | none => none
    depth := c.depth.getD 0 }

/-- One iteration of the per-post loop of `collect_comments_for_posts`:
skip a row with a falsy permalink (`if not permalink: continue`); fetch and
flatten the post's comment tree (the environment supplies the flattened
list, or `Except.error` when the fetch raises, in which case the post is
skipped by the `try/except`); truncate to the first `max_comments_per_post`
comments only when `max_comments_per_post and max_comments_per_post > 0` is
truthy; normalize each kept comment and append. -/
def commentStep (fetch : String → Except String (List Comment))
    (max_comments_per_post : Int) (acc : List CommentRow) (row : Row) :
    List CommentRow :=
  match row.permalink with
  | none => acc
  | some p =>
    if p = "" then acc
    else
      match fetch p with
      | Except.error _ => acc
      | Except.ok flat =>
        let flat :=
          if max_comments_per_post ≠ 0 ∧ 0 < max_comments_per_post then
            flat.take max_comments_per_post.toNat
          else flat
        acc ++ flat.map (mkCommentRow row p)

/-- `collect_comments_for_posts`: the per-post loop over the exported post
rows, starting from an empty `all_comments` list. -/
def collect_comments_for_posts
    (fetch : String → Except String (List Comment))
    (post_df : List Row) (max_comments_per_post : Int) : List CommentRow :=
  post_df.foldl (commentStep fetch max_comments_per_post) []

/-- A submission all of whose attributes are absent. -/
def allNoneSub : Submission :=
  { title := PyVal.vNone, score := PyVal.vNone, upvote_ratio := PyVal.vNone,
    num_comments := PyVal.vNone, author := none, url := PyVal.vNone,
    permalink := PyVal.vNone, created_utc := PyVal.vNone,
    is_self := PyVal.vNone, selftext := PyVal.vNone,
    link_flair_text := PyVal.vNone, domain := PyVal.vNone }

/-- A submission whose `created_utc` attribute is a string that `int()`
cannot parse. -/
def badCreatedSub : Submission :=
  { allNoneSub with created_utc := PyVal.vStr "not_a_number" }

/-- A submission whose `permalink` is already an absolute URL. -/
def absPermaSub : Submission :=
  { allNoneSub with permalink := PyVal.vStr "https://example.com/p" }

/-- A submission with an ordinary relative permalink. -/
def relPermaSub : Submission :=
  { allNoneSub with permalink := PyVal.vStr "/r/movies/comments/1" }

/-- Inversion for `Except.map`. -/
lemma except_map_eq_ok {ε α β : Type} (x : Except ε α) (f : α → β) (r : β)
    (h : x.map f = Except.ok r) : ∃ a, x = Except.ok a ∧ r = f a := by
  cases x with
  | error e => simp [Except.map] at h
  | ok a =>
    refine ⟨a, rfl, ?_⟩
    simpa [Except.map] using h.symm

/-- Every successfully normalized row is `rowCore` at some coerced
`created_utc` value. -/
lemma row_ok_inv (sub : Submission) (name : String) (q : Option String)
    (r : Row) (h : _row_from_submission sub name q = Except.ok r) :
    ∃ cu, r = rowCore sub name q cu := by
  simp only [_row_from_submission] at h
  obtain ⟨a, _, hr⟩ := except_map_eq_ok _ _ _ h
  exact ⟨a, hr⟩

/-- Claim C1 (amended): for every raw submission whose `created_utc`
attribute is absent (`None`) or coercible by `int()` — an int, a bool, or a
string parsing as an integer — the Row Normalizer returns a complete row
(a `Row`, which carries exactly the 14 schema keys) and does not raise; all
other absent or malformed attributes degrade to null for that field only.
(The unamended claim also covered an unparsable `created_utc`; see the
counterexample.) -/
theorem c1_normalizer_ok_of_created_utc_coercible (sub : Submission)
    (name : String) (q : Option String)
    (h : sub.created_utc = PyVal.vNone ∨ pyIntOk sub.created_utc = true) :
    ∃ r, _row_from_submission sub name q = Except.ok r := by
  cases hc : sub.created_utc with
  | vNone =>
    exact ⟨rowCore sub name q none,
      by simp [_row_from_submission, hc, Except.map]⟩
  | vInt n =>
    exact ⟨rowCore sub name q (some n),
      by simp [_row_from_submission, hc, pyInt, Except.map]⟩
  | vBool b =>
    exact ⟨rowCore sub name q (some (if b then 1 else 0)),
      by simp [_row_from_submission, hc, pyInt, Except.map]⟩
  | vStr s =>
    rw [hc] at h
    have hs : (pyIntOfString s).isSome = true := by
      rcases h with h | h
      · exact absurd h (by simp)
      · simpa [pyIntOk] using h
    obtain ⟨n, hn⟩ := Option.isSome_iff_exists.mp hs
    exact ⟨rowCore sub name q (some n),
      by simp [_row_from_submission, hc, pyInt, hn, Except.map]⟩

/-- Witness for C1: a submission with every attribute absent is normalized
successfully. -/
theorem c1_witness :
    ∃ r, _row_from_submission allNoneSub "pets" none = Except.ok r :=
  c1_normalizer_ok_of_created_utc_coercible allNoneSub "pets" none
    (Or.inl rfl)

/-- Counterexample to C1 as stated: on a submission whose `created_utc` is
the unparsable string `"not_a_number"`, `_row_from_submission` raises
(`int()` raises `ValueError`) instead of degrading the field to null. -/
theorem c1_counterexample :
    (_row_from_submission badCreatedSub "pets" none).isOk = false := by
  decide

/-- A row (built by the normalizer) with no permalink and the given url. -/
def nullPermaRow (u : String) : Row :=
  rowCore { allNoneSub with url := PyVal.vStr u } "pets" none none

/-- The submission behind the duplicated-permalink scenario. -/
def p1Sub : Submission :=
  { allNoneSub with permalink := PyVal.vStr "/r/p/1" }

/-- The row the hot pass inserts for `p1Sub` (empty `search_query`). -/
def hotRowP1 : Row := rowCore p1Sub "netflix" none none

/-- The row a later search pass inserts for the same submission. -/
def searchRowP1 : Row := rowCore p1Sub "netflix" (some "Netflix Originals") none

/-- After dedup, no row with a key already seen survives. -/
lemma dedupPermalink_filter_of_mem (k : Option String) :
    ∀ (rows : List Row) (seen : List (Option String)), k ∈ seen →
      (dedupPermalink seen rows).filter (fun r => decide (r.permalink = k))
        = [] := by
  intro rows
  induction rows with
  | nil => intro seen hk; simp [dedupPermalink]
  | cons r rs ih =>
    intro seen hk
    by_cases hmem : r.permalink ∈ seen
    · simpa [dedupPermalink, hmem] using ih seen hk
    · have hne : decide (r.permalink = k) = false := by
        simp only [decide_eq_false_iff_not]
        exact fun he => hmem (he ▸ hk)
      simp only [dedupPermalink, if_neg hmem, List.filter_cons, hne,
        Bool.false_eq_true, if_false]
      exact ih (r.permalink :: seen) (by simp [hk])

/-- The rows surviving dedup with a fresh key `k` are exactly the first
input row whose key is `k`, if any. -/
lemma dedupPermalink_filter_of_not_mem (k : Option String) :
    ∀ (rows : List Row) (seen : List (Option String)), k ∉ seen →
      (dedupPermalink seen rows).filter (fun r => decide (r.permalink = k))
        = (rows.find? (fun r => decide (r.permalink = k))).toList := by
  intro rows
  induction rows with
  | nil => intro seen hk; simp [dedupPermalink]
  | cons r rs ih =>
    intro seen hk
    by_cases hmem : r.permalink ∈ seen
    · have hne : decide (r.permalink = k) = false := by
        simp only [decide_eq_false_iff_not]
        exact fun he => hk (he ▸ hmem)
      simp only [dedupPermalink, if_pos hmem, List.find?_cons, hne]
      exact ih seen hk
    · by_cases heq : r.permalink = k
      · subst heq
        have htr : decide (r.permalink = r.permalink) = true := by simp
        simp only [dedupPermalink, if_neg hmem, List.filter_cons, htr,
          if_true, List.find?_cons]
        rw [dedupPermalink_filter_of_mem r.permalink rs (r.permalink :: seen)
          (by simp)]
        rfl
      · have hne : decide (r.permalink = k) = false := by
          simp only [decide_eq_false_iff_not]
          exact fun he => heq he
        simp only [dedupPermalink, if_neg hmem, List.filter_cons, hne,
          Bool.false_eq_true, if_false, List.find?_cons]
        have hk2 : k ∉ r.permalink :: seen := by
          intro hmem2
          rcases List.mem_cons.mp hmem2 with he | he
          · exact heq he.symm
          · exact hk he
        exact ih (r.permalink :: seen) hk2

/-- Dedup of rows whose keys were all seen already yields nothing. -/
lemma dedupPermalink_nil_of_all_seen :
    ∀ (rows : List Row) (seen : List (Option String)),
      (∀ r ∈ rows, r.permalink ∈ seen) → dedupPermalink seen rows = [] := by
  intro rows
  induction rows with
  | nil => intro seen _; rfl
  | cons r rs ih =>
    intro seen hall
    have hr : r.permalink ∈ seen := hall r (by simp)
    simp only [dedupPermalink, if_pos hr]
    exact ih seen (fun x hx => hall x (by simp [hx]))

/-- Specialization to the exported table. -/
lemma export_filter_key (rows : List Row) (k : Option String) :
    (export_posts_csv rows).filter (fun r => decide (r.permalink = k))
      = (rows.find? (fun r => decide (r.permalink = k))).toList :=
  dedupPermalink_filter_of_not_mem k rows [] (by simp)

/-- When at least two rows carry the key, exactly the first-inserted one
survives the export. -/
lemma export_unique_key (rows : List Row) (k : Option String)
    (h : 2 ≤ (rows.filter (fun r => decide (r.permalink = k))).length) :
    ∃ fst, rows.find? (fun r => decide (r.permalink = k)) = some fst ∧
      (export_posts_csv rows).filter (fun r => decide (r.permalink = k))
        = [fst] := by
  have hne : rows.filter (fun r => decide (r.permalink = k)) ≠ [] := by
    intro he
    rw [he] at h
    simp at h
  obtain ⟨x, hx⟩ := List.exists_mem_of_ne_nil _ hne
  have hx' := List.mem_filter.mp hx
  have hsome : (rows.find? (fun r => decide (r.permalink = k))).isSome := by
    rw [List.find?_isSome]
    exact ⟨x, hx'.1, hx'.2⟩
  obtain ⟨fst, hfst⟩ := Option.isSome_iff_exists.mp hsome
  refine ⟨fst, hfst, ?_⟩
  rw [export_filter_key, hfst]
  rfl

/-- Claim C3: when two or more accumulated rows share the same non-null
permalink, the exported table retains exactly one row with that permalink,
namely the earliest-inserted one (`List.find?` returns the first match). -/
theorem c3_dedup_keeps_first_by_permalink (rows : List Row) (p : String)
    (h : 2 ≤ (rows.filter (fun r => decide (r.permalink = some p))).length) :
    ∃ fst, rows.find? (fun r => decide (r.permalink = some p)) = some fst ∧
      (export_posts_csv rows).filter
          (fun r => decide (r.permalink = some p)) = [fst] :=
  export_unique_key rows (some p) h

/-- Witness for C3: a hot-pass row and a later search-pass row for the same
submission; the survivor is the hot row, whose `search_query` is empty. -/
theorem c3_witness :
    (export_posts_csv [hotRowP1, searchRowP1]).filter
        (fun r => decide (r.permalink = some "https://www.reddit.com/r/p/1"))
      = [hotRowP1] ∧ hotRowP1.search_query = "" := by
  obtain ⟨fst, hfind, hfilt⟩ := c3_dedup_keeps_first_by_permalink
    [hotRowP1, searchRowP1] "https://www.reddit.com/r/p/1" (by decide)
  have hf : [hotRowP1, searchRowP1].find?
      (fun r => decide (r.permalink = some "https://www.reddit.com/r/p/1"))
        = some hotRowP1 := by decide
  rw [hf] at hfind
  cases hfind
  exact ⟨hfilt, by decide⟩

/-- Claim C4 (amended): `export_posts_csv` always dedups on `permalink`
(the column is always present); there is no `url` fallback. When no row has
a non-null permalink all rows share the null key, so only the very first
row survives, regardless of `url`. -/
theorem c4_no_url_fallback (rows : List Row)
    (h : ∀ r ∈ rows, r.permalink = none) :
    export_posts_csv rows = rows.take 1 := by
  cases rows with
  | nil => rfl
  | cons r rs =>
    have h0 : r.permalink = none := h r (by simp)
    show dedupPermalink [] (r :: rs) = [r]
    have hall : ∀ x ∈ rs, x.permalink ∈ [r.permalink] := by
      intro x hxs
      simp [h x (by simp [hxs]), h0]
    simp only [dedupPermalink, List.not_mem_nil, if_false]
    rw [dedupPermalink_nil_of_all_seen rs [r.permalink] hall]

/-- Witness for C4 (amended): two permalink-less rows collapse to the
first. -/
theorem c4_witness :
    export_posts_csv
        [nullPermaRow "https://w.example/1", nullPermaRow "https://w.example/2"]
      = [nullPermaRow "https://w.example/1"] :=
  c4_no_url_fallback
    [nullPermaRow "https://w.example/1", nullPermaRow "https://w.example/2"]
    (by decide)

/-- Counterexample to C4 as stated: two rows with no permalink but distinct
urls. Under the claimed url-keyed dedup both would survive; the code keeps
only the first. -/
theorem c4_counterexample :
    (nullPermaRow "https://u.example/1").url
        ≠ (nullPermaRow "https://u.example/2").url ∧
    export_posts_csv
        [nullPermaRow "https://u.example/1", nullPermaRow "https://u.example/2"]
      = [nullPermaRow "https://u.example/1"] := by
  decide

/-- Claim C9: two or more rows with a null permalink are treated as equal
duplicate keys (as pandas does for missing values); only the first such row
survives the export. -/
theorem c9_null_permalinks_collapse (rows : List Row)
    (h : 2 ≤ (rows.filter
        (fun r => decide (r.permalink = (none : Option String)))).length) :
    ∃ fst, rows.find?
        (fun r => decide (r.permalink = (none : Option String))) = some fst ∧
      (export_posts_csv rows).filter
          (fun r => decide (r.permalink = (none : Option String))) = [fst] :=
  export_unique_key rows none h

/-- Witness for C9: two distinct permalink-less rows around a normal row;
only the first permalink-less row survives. -/
theorem c9_witness :
    (export_posts_csv [nullPermaRow "https://a.example/1", hotRowP1,
        nullPermaRow "https://a.example/2"]).filter
        (fun r => decide (r.permalink = (none : Option String)))
      = [nullPermaRow "https://a.example/1"] := by
  obtain ⟨fst, hfind, hfilt⟩ := c9_null_permalinks_collapse
    [nullPermaRow "https://a.example/1", hotRowP1,
      nullPermaRow "https://a.example/2"] (by decide)
  have hf : [nullPermaRow "https://a.example/1", hotRowP1,
      nullPermaRow "https://a.example/2"].find?
        (fun r => decide (r.permalink = (none : Option String)))
      = some (nullPermaRow "https://a.example/1") := by decide
  rw [hf] at hfind
  cases hfind
  exact hfilt

/-- Claim C2 (amended): the normalizer prefixes `https://www.reddit.com` to
the string form of every truthy permalink — whether it is a relative path
or already an absolute URL — and emits null for a falsy (absent or empty)
permalink. (The unamended claim said an already-absolute permalink passes
through unchanged; see the counterexample.) -/
theorem c2_permalink_always_prefixed (sub : Submission) (name : String)
    (q : Option String) (r : Row)
    (hok : _row_from_submission sub name q = Except.ok r) :
    (pyTruthy sub.permalink = true →
      r.permalink = some ("https://www.reddit.com" ++ pyStr sub.permalink)) ∧
    (pyTruthy sub.permalink = false → r.permalink = none) := by
  obtain ⟨cu, rfl⟩ := row_ok_inv sub name q r hok
  constructor <;> intro ht <;> simp [rowCore, ht]

/-- Witness for C2: a relative permalink `/r/movies/comments/1` is
normalized to `https://www.reddit.com/r/movies/comments/1`. -/
theorem c2_witness :
    (rowCore relPermaSub "movies" none none).permalink
      = some "https://www.reddit.com/r/movies/comments/1" :=
  Eq.trans
    ((c2_permalink_always_prefixed relPermaSub "movies" none
        (rowCore relPermaSub "movies" none none) rfl).1 (by decide))
    (by decide)

/-- Counterexample to C2 as stated: a permalink that is already the
absolute URL `https://example.com/p` does not pass through unchanged — the
site origin is prepended anyway. -/
theorem c2_counterexample :
    _row_from_submission absPermaSub "movies" none
      = Except.ok (rowCore absPermaSub "movies" none none) ∧
    (rowCore absPermaSub "movies" none none).permalink
      = some "https://www.reddit.comhttps://example.com/p" ∧
    (rowCore absPermaSub "movies" none none).permalink
      ≠ some "https://example.com/p" := by
  refine ⟨rfl, by decide, by decide⟩

/-- The row built for submission `s` in pass `q` carries `search_query`
equal to `q or ""`. -/
lemma row_ok_search_query (sub : Submission) (name : String)
    (q : Option String) (r : Row)
    (h : _row_from_submission sub name q = Except.ok r) :
    r.search_query = orEmpty q := by
  obtain ⟨cu, rfl⟩ := row_ok_inv sub name q r h
  rfl

/-- Rows appended by the inner submission loop carry the pass provenance. -/
lemma appendRows_mem (name : String) (q : Option String) :
    ∀ (subs : List Submission) (acc : List Row × Nat) (r : Row),
      r ∈ (appendRows name q acc subs).1 →
        r ∈ acc.1 ∨ r.search_query = orEmpty q := by
  intro subs
  induction subs with
  | nil => intro acc r hr; exact Or.inl hr
  | cons s rest ih =>
    intro acc r hr
    cases hrow : _row_from_submission s name q with
    | error e =>
      simp only [appendRows, hrow] at hr
      exact Or.inl hr
    | ok row =>
      simp only [appendRows, hrow] at hr
      rcases ih _ r hr with h | h
      · rcases List.mem_append.mp h with h | h
        · exact Or.inl h
        · rcases List.mem_singleton.mp h with rfl
          exact Or.inr (row_ok_search_query s name q r hrow)
      · exact Or.inr h

/-- Rows accumulated by a whole pass carry the pass provenance. -/
lemma foldl_passStep_mem (q : Option String) :
    ∀ (fetches : List (String × Except String (List Submission)))
      (acc : List Row × Nat) (r : Row),
      r ∈ (fetches.foldl (passStep q) acc).1 →
        r ∈ acc.1 ∨ r.search_query = orEmpty q := by
  intro fetches
  induction fetches with
  | nil => intro acc r hr; exact Or.inl hr
  | cons f rest ih =>
    intro acc r hr
    rw [List.foldl_cons] at hr
    rcases ih (passStep q acc f) r hr with h | h
    · cases hf : f.2 with
      | error e =>
        simp only [passStep, hf] at h
        exact Or.inl h
      | ok subs =>
        simp only [passStep, hf] at h
        exact appendRows_mem f.1 q subs acc r h
    · exact Or.inr h

/-- `s or ""` is `s` for every string `s`. -/
lemma orEmpty_some (s : String) : orEmpty (some s) = s := by
  by_cases h : s = ""
  · simp [orEmpty, h]
  · simp [orEmpty, h]

/-- Claim C8: every row produced by the hot-listing pass has `search_query`
equal to the empty string (never null — the field is `String`-typed), and
every row produced by a search pass with query `q` has `search_query` equal
to `q`; rows already present before the pass are untouched. -/
theorem c8_search_query_provenance (rows₀ : List Row)
    (fetches : List (String × Except String (List Submission)))
    (q : String) :
    (∀ r ∈ (fetch_hot_posts rows₀ fetches).1,
        r ∈ rows₀ ∨ r.search_query = "") ∧
    (∀ r ∈ (search_posts q rows₀ fetches).1,
        r ∈ rows₀ ∨ r.search_query = q) := by
  constructor
  · intro r hr
    exact foldl_passStep_mem none fetches (rows₀, 0) r hr
  · intro r hr
    have h := foldl_passStep_mem (some q) fetches (rows₀, 0) r hr
    rwa [orEmpty_some] at h

/-- Witness for C8: one submission collected by a hot pass gets an empty
`search_query`; the same submission collected by a search pass for
`"netflix"` gets `search_query = "netflix"`. -/
theorem c8_witness :
    (rowCore allNoneSub "sw" none none).search_query = "" ∧
    (rowCore allNoneSub "sw" (some "netflix") none).search_query
      = "netflix" := by
  constructor
  · have hm : rowCore allNoneSub "sw" none none
        ∈ (fetch_hot_posts [] [("sw", Except.ok [allNoneSub])]).1 := by
      decide
    have h := (c8_search_query_provenance []
      [("sw", Except.ok [allNoneSub])] "netflix").1 _ hm
    exact h.resolve_left (List.not_mem_nil _)
  · have hm : rowCore allNoneSub "sw" (some "netflix") none
        ∈ (search_posts "netflix" [] [("sw", Except.ok [allNoneSub])]).1 := by
      decide
    have h := (c8_search_query_provenance []
      [("sw", Except.ok [allNoneSub])] "netflix").2 _ hm
    exact h.resolve_left (List.not_mem_nil _)

/-- A subreddit whose listing call raises contributes nothing: the pass
computes the same result as if that subreddit were not in the list. -/
lemma runPass_error_skip (qq : Option String) (rows₀ : List Row)
    (pre post : List (String × Except String (List Submission)))
    (name e : String) :
    runPass qq rows₀ (pre ++ (name, Except.error e) :: post)
      = runPass qq rows₀ (pre ++ post) := by
  unfold runPass
  rw [List.foldl_append, List.foldl_append, List.foldl_cons]
  rfl

/-- Claim C6: a failure raised while retrieving one subreddit is caught at
that loop iteration (in both `fetch_hot_posts` and `search_posts`): the
failing subreddit contributes zero rows, every other subreddit's rows are
accumulated exactly as if the failing one were absent, and the pass — hence
the later export — completes without the failure propagating. -/
theorem c6_per_subreddit_failure_isolation (q : String) (rows₀ : List Row)
    (pre post : List (String × Except String (List Submission)))
    (name e : String) :
    fetch_hot_posts rows₀ (pre ++ (name, Except.error e) :: post)
      = fetch_hot_posts rows₀ (pre ++ post) ∧
    search_posts q rows₀ (pre ++ (name, Except.error e) :: post)
      = search_posts q rows₀ (pre ++ post) :=
  ⟨runPass_error_skip none rows₀ pre post name e,
    runPass_error_skip (some q) rows₀ pre post name e⟩

/-- A concrete submission for the end-to-end hot-listing scenario: distinct
permalinks indexed by `i`. -/
def hotSub (i : Nat) : Submission :=
  { allNoneSub with
      title := PyVal.vStr "t",
      permalink := PyVal.vStr ("/r/h/" ++ toString i),
      created_utc := PyVal.vInt 1700000000 }

/-- The scenario environment: `sub1`'s hot listing yields 5 submissions,
`sub2`'s yields 3, no duplicates. -/
def scenarioFetches : List (String × Except String (List Submission)) :=
  [("sub1", Except.ok [hotSub 1, hotSub 2, hotSub 3, hotSub 4, hotSub 5]),
   ("sub2", Except.ok [hotSub 6, hotSub 7, hotSub 8])]

/-- The number of accumulated rows contributed by one subreddit. -/
def countBySubreddit (rows : List Row) (name : String) : Nat :=
  (rows.filter (fun r => decide (r.subreddit = name))).length

/-- Claim C5: hot-collecting two subreddits that yield 5 and 3 submissions
(no duplicates) exports 8 Post Rows; the per-subreddit contributions are
5 for `sub1` and 3 for `sub2` (each row records its subreddit, and the
hot-mode rows are identified by their empty `search_query`), and the pass
counter logs 8. -/
theorem c5_hot_scenario :
    (export_posts_csv (fetch_hot_posts [] scenarioFetches).1).length = 8 ∧
    countBySubreddit (fetch_hot_posts [] scenarioFetches).1 "sub1" = 5 ∧
    countBySubreddit (fetch_hot_posts [] scenarioFetches).1 "sub2" = 3 ∧
    (fetch_hot_posts [] scenarioFetches).2 = 8 ∧
    ∀ r ∈ (fetch_hot_posts [] scenarioFetches).1, r.search_query = "" := by
  decide

/-- `s[:n]` keeps a short string whole. -/
lemma pytake_eq_self (s : String) (n : Nat) (h : s.length ≤ n) :
    pytake s n = s := by
  cases s with
  | mk data =>
    simp only [pytake, String.length] at *
    rw [List.take_of_length_le h]

/-- `s[:n]` has length `min n (len s)`. -/
lemma pytake_length (s : String) (n : Nat) :
    (pytake s n).length = min n s.length := by
  cases s with
  | mk data => simp [pytake, String.length]

/-- Claim C7: a textual `selftext` longer than 500 characters is truncated
to exactly its first 500 characters (a hard cap, no ellipsis); 500
characters or fewer pass through unchanged. -/
theorem c7_selftext_truncation (sub : Submission) (name : String)
    (q : Option String) (r : Row) (s : String)
    (hs : sub.selftext = PyVal.vStr s)
    (hok : _row_from_submission sub name q = Except.ok r) :
    (500 < s.length →
      r.selftext = PyVal.vStr (pytake s 500) ∧ (pytake s 500).length = 500) ∧
    (s.length ≤ 500 → r.selftext = PyVal.vStr s) := by
  obtain ⟨cu, rfl⟩ := row_ok_inv sub name q r hok
  have hsel : (rowCore sub name q cu).selftext = PyVal.vStr (pytake s 500) := by
    simp [rowCore, hs]
  constructor
  · intro h5
    refine ⟨hsel, ?_⟩
    rw [pytake_length]
    omega
  · intro h5
    rw [hsel, pytake_eq_self s 500 h5]

/-- A 501-character selftext. -/
def longText : String := String.mk (List.replicate 501 'a')

/-- A submission carrying the 501-character selftext. -/
def longTextSub : Submission :=
  { allNoneSub with selftext := PyVal.vStr longText }

set_option maxRecDepth 4096 in
/-- Witness for C7: the 501-character selftext is cut to 500 characters. -/
theorem c7_witness :
    500 < longText.length ∧
    ((rowCore longTextSub "pets" none none).selftext
        = PyVal.vStr (pytake longText 500) ∧
      (pytake longText 500).length = 500) :=
  ⟨by decide,
    (c7_selftext_truncation longTextSub "pets" none
      (rowCore longTextSub "pets" none none) longText rfl rfl).1 (by decide)⟩

/-- One iteration of the comment loop only ever appends to the
accumulator. -/
lemma commentStep_append (fetch : String → Except String (List Comment))
    (m : Int) (acc : List CommentRow) (row : Row) :
    commentStep fetch m acc row = acc ++ commentStep fetch m [] row := by
  cases hp : row.permalink with
  | none => simp [commentStep, hp]
  | some p =>
    by_cases hpe : p = ""
    · simp [commentStep, hp, hpe]
    · cases hf : fetch p with
      | error e => simp [commentStep, hp, hpe, hf]
      | ok flat => simp [commentStep, hp, hpe, hf]

/-- The comment loop distributes over the accumulator. -/
lemma foldl_commentStep_append
    (fetch : String → Except String (List Comment)) (m : Int) :
    ∀ (posts : List Row) (acc : List CommentRow),
      posts.foldl (commentStep fetch m) acc
        = acc ++ posts.foldl (commentStep fetch m) [] := by
  intro posts
  induction posts with
  | nil => intro acc; simp
  | cons r rs ih =>
    intro acc
    rw [List.foldl_cons, List.foldl_cons]
    rw [ih (commentStep fetch m acc r), ih (commentStep fetch m [] r)]
    rw [commentStep_append fetch m acc r, List.append_assoc]

/-- Claim C10: a `max_comments_per_post` of `0` — or any non-positive
value — disables the cap entirely (`m and m > 0` is falsy), so every
flattened comment of the post is emitted; truncation to the first
`max_comments_per_post` entries happens only for a strictly positive cap.
The loop treats each post independently (third conjunct). -/
theorem c10_nonpositive_cap_disables_truncation
    (fetch : String → Except String (List Comment)) (m : Int) (row : Row)
    (p : String) (flat : List Comment)
    (h1 : row.permalink = some p) (h2 : p ≠ "")
    (h3 : fetch p = Except.ok flat) :
    (m ≤ 0 → collect_comments_for_posts fetch [row] m
        = flat.map (mkCommentRow row p)) ∧
    (0 < m → collect_comments_for_posts fetch [row] m
        = (flat.take m.toNat).map (mkCommentRow row p)) ∧
    (∀ posts1 posts2 : List Row,
      collect_comments_for_posts fetch (posts1 ++ posts2) m
        = collect_comments_for_posts fetch posts1 m
          ++ collect_comments_for_posts fetch posts2 m) := by
  have hsingle : collect_comments_for_posts fetch [row] m
      = commentStep fetch m [] row := rfl
  refine ⟨?_, ?_, ?_⟩
  · intro hm
    rw [hsingle]
    simp only [commentStep, h1, if_neg h2, h3]
    rw [if_neg (fun hc => absurd hc.2 (not_lt.mpr hm))]
    exact List.nil_append _
  · intro hm
    rw [hsingle]
    simp only [commentStep, h1, if_neg h2, h3]
    rw [if_pos ⟨by omega, hm⟩]
    exact List.nil_append _
  · intro posts1 posts2
    show (posts1 ++ posts2).foldl (commentStep fetch m) [] = _
    rw [List.foldl_append, foldl_commentStep_append fetch m posts2]
    rfl

/-- A concrete flattened comment indexed by `i`. -/
def wComment (i : Nat) : Comment :=
  { id := some (toString i), authorName := some "u", body := some "hello",
    score := some 1, created_utc := some 1700000001, depth := some 0 }

/-- Witness for C10: with a cap of `0`, a post whose thread flattens to 3
comments yields all 3 comment rows, not 0. -/
theorem c10_witness :
    collect_comments_for_posts
        (fun _ => Except.ok [wComment 1, wComment 2, wComment 3])
        [hotRowP1] 0
      = [wComment 1, wComment 2, wComment 3].map
          (mkCommentRow hotRowP1 "https://www.reddit.com/r/p/1") :=
  (c10_nonpositive_cap_disables_truncation
    (fun _ => Except.ok [wComment 1, wComment 2, wComment 3]) 0 hotRowP1
    "https://www.reddit.com/r/p/1" [wComment 1, wComment 2, wComment 3]
    (by decide) (by decide) rfl).1 (by decide)
